import Mathlib

/-!
Verification of the platform abstraction layer of `webhook-push`
(`src/webhook-push/index.js`): platform registry, configuration resolver,
progress-message formatters, the HTTP dispatcher's response classification,
and the `pushProgress` entry point.

The JavaScript source is shallowly embedded:
- `process.env` becomes an explicit map `Env := String → Option String`
  (a variable that is unset maps to `none`); JavaScript string truthiness
  (`!key`) is the predicate `isFalsy`.
- functions that `throw` become `Except String` values carrying the exact
  error-message string the source builds.
- `new Date().toISOString()` inside the formatters is impure, so each
  formatter takes the captured timestamp as an explicit argument `now`.
- `JSON.parse` in the dispatcher is abstracted as a caller-supplied
  `parseJson : String → Option α`; the response handler is modelled by
  `sendRequestEnd`, the `res.on('end', ...)` callback of `sendRequest`.
- `pushProgress` is modelled up to its delegation to `push`: it returns the
  pair of arguments it passes to `push` together with the caller's options
  object as it stands after the call (the `feishu` branch mutates it).
- the registry tables `ENV_KEYS`, `ENV_EXTRAS` and `STATUS_STYLES` are plain
  object literals in the source, so a bracket lookup with an arbitrary
  string key can also reach the truthy members inherited from
  `Object.prototype` (`constructor`, `toString`, `hasOwnProperty`, ...).
  The Lean tables keep the literals' own entries; the access `obj[key]` is
  modelled by `registryGet` / `styleLookup`, which fall through to the
  `OBJECT_PROTOTYPE` table. Inherited values are functions (or
  `Object.prototype` itself for `__proto__`); their string coercion, used
  as a `process.env` key and in interpolated messages, is the Node/V8
  rendering recorded in `OBJECT_PROTOTYPE`; property reads on them
  (`style.color` etc.) yield `undefined`, which interpolates as the text
  `undefined`.
- the model's `toUpperCase` is per-character ASCII uppercasing; JS performs
  full Unicode uppercasing, so statements about upper-cased output are
  scoped to ASCII-only status strings via `asciiOnly`.
-/

namespace WebhookPush

/-- Process environment: a partial map from variable names to string values. -/
def Env : Type := String → Option String

/-- Object.values(PLATFORMS) from the source, in insertion order. -/
def PLATFORMS : List String := ["wecom", "dingtalk", "feishu", "slack", "telegram"]

/-- DEFAULT_PLATFORM from the source. -/
def DEFAULT_PLATFORM : String := "wecom"

/-- ENV_KEYS lookup: the primary credential variable registered per platform;
`none` for an identifier outside the registry. -/
def ENV_KEYS (platform : String) : Option String :=
  if platform = "wecom" then some "WEBHOOK_WECOM_KEY"
  else if platform = "dingtalk" then some "WEBHOOK_DINGTALK_TOKEN"
  else if platform = "feishu" then some "WEBHOOK_FEISHU_TOKEN"
  else if platform = "slack" then some "WEBHOOK_SLACK_URL"
  else if platform = "telegram" then some "WEBHOOK_TELEGRAM_TOKEN"
  else none

/-- ENV_EXTRAS lookup: the additional required variable, only for telegram. -/
def ENV_EXTRAS (platform : String) : Option String :=
  if platform = "telegram" then some "WEBHOOK_TELEGRAM_CHAT_ID" else none

/-- Members of `Object.prototype` reachable through the prototype chain by
a bracket lookup on a plain object literal, mapped to the string each
coerces to when used as a property key or interpolated into a template
(Node/V8 renders the built-in functions as NativeFunction strings; the
`__proto__` accessor yields `Object.prototype` itself, which coerces to
`[object Object]`). Every one of these inherited values is truthy. -/
def OBJECT_PROTOTYPE (key : String) : Option String :=
  if key = "constructor" then some "function Object() \x7b [native code] \x7d"
  else if key = "hasOwnProperty" then some "function hasOwnProperty() \x7b [native code] \x7d"
  else if key = "isPrototypeOf" then some "function isPrototypeOf() \x7b [native code] \x7d"
  else if key = "propertyIsEnumerable" then some "function propertyIsEnumerable() \x7b [native code] \x7d"
  else if key = "toLocaleString" then some "function toLocaleString() \x7b [native code] \x7d"
  else if key = "toString" then some "function toString() \x7b [native code] \x7d"
  else if key = "valueOf" then some "function valueOf() \x7b [native code] \x7d"
  else if key = "__defineGetter__" then some "function __defineGetter__() \x7b [native code] \x7d"
  else if key = "__defineSetter__" then some "function __defineSetter__() \x7b [native code] \x7d"
  else if key = "__lookupGetter__" then some "function __lookupGetter__() \x7b [native code] \x7d"
  else if key = "__lookupSetter__" then some "function __lookupSetter__() \x7b [native code] \x7d"
  else if key = "__proto__" then some "[object Object]"
  else none

/-- Result of the JS property access `obj[key]` on one of the registry
object literals: an own entry (a string), a truthy member inherited from
`Object.prototype` (carrying its string coercion), or `undefined`. -/
inductive Lookup where
  | str (v : String)
  | inherited (coerced : String)
  | undefined
deriving Repr, DecidableEq

/-- The access `own[key]` including the prototype chain. -/
def registryGet (own : String → Option String) (key : String) : Lookup :=
  match own key with
  | some v => .str v
  | none =>
      match OBJECT_PROTOTYPE key with
      | some c => .inherited c
      | none => .undefined

/-- JavaScript truthiness of a property-lookup result: `undefined` and the
empty string are falsy; inherited `Object.prototype` members are truthy. -/
def isFalsyLookup : Lookup → Bool
  | .str v => v = ""
  | .inherited _ => false
  | .undefined => true

/-- String coercion of a lookup result, as used for a `process.env` key and
in interpolated error messages (`undefined` interpolates as `undefined`). -/
def coerceLookup : Lookup → String
  | .str v => v
  | .inherited c => c
  | .undefined => "undefined"

/-- JavaScript truthiness test for `process.env[k]`: an unset variable
(`undefined`) and the empty string are both falsy. -/
def isFalsy : Option String → Bool
  | none => true
  | some v => v = ""

/-- Configuration object returned by `getConfig`: `{ key }` plus the optional
`extra` field set for platforms with an extra required variable. -/
structure Config where
  key : String
  extra : Option String := none
deriving Repr, DecidableEq

/-- Embedding of `getConfig(platform)` (index.js lines 256-289). Throwing is
modelled by `Except.error` carrying the exact message string the source
builds. `ENV_KEYS[platform]` and `ENV_EXTRAS[platform]` are bracket
lookups on object literals, so they go through `registryGet` and can find
inherited `Object.prototype` members (truthy), which then get coerced to
strings when used as `process.env` keys or interpolated into messages —
on such identifiers the unknown-platform branch is NOT taken. -/
def getConfig (env : Env) (platform : String) : Except String Config :=
  let envKey := registryGet ENV_KEYS platform
  if isFalsyLookup envKey then
    .error ("Unknown platform: " ++ platform ++ ". Supported platforms: "
      ++ String.intercalate ", " PLATFORMS)
  else
    let key := env (coerceLookup envKey)
    if isFalsy key then
      .error ("Missing environment variable: " ++ coerceLookup envKey
        ++ "\nPlease set it in your .env file or environment.\nExample: "
        ++ coerceLookup envKey ++ "=your-webhook-key-or-token")
    else
      let extraEnv := registryGet ENV_EXTRAS platform
      if isFalsyLookup extraEnv then
        .ok { key := key.getD "" }
      else
        let extraValue := env (coerceLookup extraEnv)
        if isFalsy extraValue then
          .error ("Missing environment variable: " ++ coerceLookup extraEnv
            ++ "\nThis is required for " ++ platform ++ " webhooks.")
        else .ok { key := key.getD "", extra := some (extraValue.getD "") }

/-- Embedding of `isConfigured(platform)`: collapses any `getConfig` failure
to `false`. Total by construction, mirroring the source's catch-all. -/
def isConfigured (env : Env) (platform : String) : Bool :=
  match getConfig env platform with
  | .ok _ => true
  | .error _ => false

/-- Embedding of `getConfiguredPlatforms()`: `Object.values(PLATFORMS).filter(isConfigured)`. -/
def getConfiguredPlatforms (env : Env) : List String :=
  PLATFORMS.filter (isConfigured env)

/-- Outcome carried by a resolved `sendRequest` promise: either the parsed
JSON response, or the fallback `{ raw: body }` object. -/
inductive SendOutcome (α : Type) where
  | parsed (response : α)
  | raw (body : String)
deriving Repr, DecidableEq

/-- Embedding of the `res.on('end', ...)` handler of `sendRequest`
(index.js lines 222-237): `JSON.parse` is abstracted as `parseJson`; a
parse exception is `none`. Rejection is `Except.error` with the exact
message template `HTTP ${res.statusCode}: ${body}`. -/
def sendRequestEnd {α : Type} (parseJson : String → Option α)
    (statusCode : Nat) (body : String) : Except String (SendOutcome α) :=
  match parseJson body with
  | some response =>
      if 200 ≤ statusCode ∧ statusCode < 300 then .ok (.parsed response)
      else .error ("HTTP " ++ toString statusCode ++ ": " ++ body)
  | none =>
      if 200 ≤ statusCode ∧ statusCode < 300 then .ok (.raw body)
      else .error ("HTTP " ++ toString statusCode ++ ": " ++ body)

/-- Status style record: `{ color, emoji, wecom }` from STATUS_STYLES. -/
structure StatusStyle where
  color : String
  emoji : String
  wecom : String
deriving Repr, DecidableEq

/-- The `in_progress` entry of STATUS_STYLES, also the fallback style. -/
def inProgressStyle : StatusStyle := { color := "yellow", emoji := "⏳", wecom := "warning" }

/-- Embedding of the STATUS_STYLES table (index.js lines 183-189). -/
def STATUS_STYLES (status : String) : Option StatusStyle :=
  if status = "started" then some { color := "blue", emoji := "🚀", wecom := "info" }
  else if status = "in_progress" then some inProgressStyle
  else if status = "completed" then some { color := "green", emoji := "✅", wecom := "info" }
  else if status = "failed" then some { color := "red", emoji := "❌", wecom := "warning" }
  else if status = "cancelled" then some { color := "grey", emoji := "⏹️", wecom := "comment" }
  else none

/-- JavaScript `String.prototype.toUpperCase()`, modelled as a per-character
uppercase map (kernel-reducible, unlike `String.toUpper`). JS applies full
Unicode uppercasing; the per-character ASCII map agrees with it exactly on
ASCII-only strings, the scope enforced by `asciiOnly` where it matters. -/
def toUpperCase (s : String) : String := ⟨s.data.map Char.toUpper⟩

/-- ASCII-only strings: on these the model's `toUpperCase` coincides with
JS `toUpperCase()` (JS Unicode case mapping, e.g. `é` to `É` or `ß` to
`SS`, only differs outside ASCII). -/
def asciiOnly (s : String) : Bool := s.data.all (fun c => c.toNat < 128)

/-- Result of the bracket lookup `STATUS_STYLES[status]` including the
prototype chain: an own style entry, a truthy member inherited from
`Object.prototype` (a function, with no `color`/`emoji`/`wecom`
properties), or `undefined`. -/
inductive StyleLookup where
  | style (s : StatusStyle)
  | protoMember (key : String)
  | undefined
deriving Repr, DecidableEq

/-- The access `STATUS_STYLES[status]` with prototype-chain fall-through. -/
def styleLookup (status : String) : StyleLookup :=
  match STATUS_STYLES status with
  | some s => .style s
  | none =>
      match OBJECT_PROTOTYPE status with
      | some _ => .protoMember status
      | none => .undefined

/-- The selection `STATUS_STYLES[status] || STATUS_STYLES.in_progress`:
only `undefined` is falsy here — own entries and inherited
`Object.prototype` members are both truthy, so the fallback fires only
when the lookup found nothing at all. -/
def selectStyle (status : String) : StyleLookup :=
  match styleLookup status with
  | .undefined => .style inProgressStyle
  | v => v

/-- The raw property read `style.color` on the selected value: a real style
entry has the field; an inherited `Object.prototype` member does not, so
the read yields `undefined` (`none`). -/
def rawColor : StyleLookup → Option String
  | .style s => some s.color
  | .protoMember _ => none
  | .undefined => none

/-- The style as the template formatters observe it: each field is read via
template-string interpolation, which renders an `undefined` property as
the literal text `undefined`. -/
def renderedStyle : StyleLookup → StatusStyle
  | .style s => s
  | .protoMember _ => { color := "undefined", emoji := "undefined", wecom := "undefined" }
  | .undefined => { color := "undefined", emoji := "undefined", wecom := "undefined" }

/-- Embedding of `formatWeComProgress` (index.js lines 403-410); `now` is the
timestamp string captured at format time. -/
def formatWeComProgress (taskName status details : String) (style : StatusStyle)
    (now : String) : String :=
  let content := "**" ++ taskName ++ "** - <font color=\"" ++ style.wecom ++ "\">"
    ++ toUpperCase status ++ "</font>"
  let content := if details = "" then content else content ++ ("\n> " ++ details)
  content ++ ("\n> Time: " ++ now)

/-- Embedding of `formatDingTalkProgress` (index.js lines 412-420). -/
def formatDingTalkProgress (taskName status details : String) (style : StatusStyle)
    (now : String) : String :=
  let content := "### " ++ style.emoji ++ " " ++ taskName ++ "\n\n"
  let content := content ++ ("**Status:** " ++ toUpperCase status ++ "\n\n")
  let content := if details = "" then content else content ++ ("> " ++ details ++ "\n\n")
  content ++ ("---\n*" ++ now ++ "*")

/-- Embedding of `formatFeishuProgress` (index.js lines 422-430). -/
def formatFeishuProgress (taskName status details : String) (style : StatusStyle)
    (now : String) : String :=
  let content := "**" ++ taskName ++ "**\n"
  let content := content ++ ("Status: " ++ toUpperCase status ++ "\n")
  let content := if details = "" then content else content ++ ("\n" ++ details ++ "\n")
  content ++ ("\n---\n" ++ now)

/-- Embedding of `formatSlackProgress` (index.js lines 432-439). -/
def formatSlackProgress (taskName status details : String) (style : StatusStyle)
    (now : String) : String :=
  let content := style.emoji ++ " *" ++ taskName ++ "* - `" ++ toUpperCase status ++ "`"
  let content := if details = "" then content else content ++ ("\n> " ++ details)
  content ++ ("\n_" ++ now ++ "_")

/-- Embedding of `formatTelegramProgress` (index.js lines 441-448). -/
def formatTelegramProgress (taskName status details : String) (style : StatusStyle)
    (now : String) : String :=
  let content := style.emoji ++ " *" ++ taskName ++ "* - `" ++ toUpperCase status ++ "`"
  let content := if details = "" then content else content ++ ("\n\n" ++ details)
  content ++ ("\n\n_" ++ now ++ "_")

/-- Embedding of `formatGenericProgress` (index.js lines 450-457), the
`default` branch of the `pushProgress` switch. -/
def formatGenericProgress (taskName status details : String) (style : StatusStyle)
    (now : String) : String :=
  let content := style.emoji ++ " " ++ taskName ++ " - " ++ toUpperCase status
  let content := if details = "" then content else content ++ ("\n" ++ details)
  content ++ ("\n" ++ now)

/-- Caller-supplied options object `{ platform?, title?, color? }`. -/
structure PushOptions where
  platform : Option String := none
  title : Option String := none
  color : Option String := none
deriving Repr, DecidableEq

/-- JavaScript `options.platform || DEFAULT_PLATFORM`: an absent or empty
string falls back to the default. -/
def orDefault (v : Option String) (dflt : String) : String :=
  match v with
  | none => dflt
  | some p => if p = "" then dflt else p

/-- Arguments with which `pushProgress` invokes `push`. -/
structure PushCall where
  content : String
  options : PushOptions
deriving Repr, DecidableEq

/-- The `switch (platform)` of `pushProgress` selecting the per-platform
progress formatter (unknown platforms take the `default` branch). -/
def dispatchFormat (platform taskName status details : String) (style : StatusStyle)
    (now : String) : String :=
  if platform = "wecom" then formatWeComProgress taskName status details style now
  else if platform = "dingtalk" then formatDingTalkProgress taskName status details style now
  else if platform = "feishu" then formatFeishuProgress taskName status details style now
  else if platform = "slack" then formatSlackProgress taskName status details style now
  else if platform = "telegram" then formatTelegramProgress taskName status details style now
  else formatGenericProgress taskName status details style now

/-- Embedding of `pushProgress(taskName, status, details, options)`
(index.js lines 368-397), modelled up to its call of `push`. The first
component is the argument pair passed to `push` (the spread copy of
`options` with `title` overridden); the second component is the caller's
`options` object after the call — the `feishu` case of the switch assigns
`options.color = style.color` on that very object, which is why it can
differ from the input. `style` is `STATUS_STYLES[status] ||
STATUS_STYLES.in_progress` (`selectStyle`), which on Object.prototype
property names yields the inherited member, not the fallback; the
formatters then interpolate its absent fields as the text `undefined`
(`renderedStyle`), and the feishu branch assigns the raw, possibly
`undefined`, `style.color` (`rawColor`). -/
def pushProgress (taskName status details : String) (options : PushOptions)
    (now : String) : PushCall × PushOptions :=
  let platform := orDefault options.platform DEFAULT_PLATFORM
  let style := selectStyle status
  let content := dispatchFormat platform taskName status details (renderedStyle style) now
  let options1 := if platform = "feishu" then { options with color := rawColor style } else options
  ({ content := content,
     options := { options1 with title := some (taskName ++ " - " ++ status) } },
   options1)

/-- Environment used as concrete input for resolver claims: only the WeCom
key is set. -/
def envWecomOnly : Env :=
  fun k => if k = "WEBHOOK_WECOM_KEY" then some "test-key-123" else none

/-- Environment with only the Telegram token set (no chat id). -/
def envTelegramTokenOnly : Env :=
  fun k => if k = "WEBHOOK_TELEGRAM_TOKEN" then some "test-token" else none

/-- Environment with both Telegram variables set. -/
def envTelegramFull : Env :=
  fun k =>
    if k = "WEBHOOK_TELEGRAM_TOKEN" then some "test-token"
    else if k = "WEBHOOK_TELEGRAM_CHAT_ID" then some "-123456" else none

-- ===========================================================================
-- Theorems
-- ===========================================================================

/-- C1: a POST completing with a status code outside [200,300) rejects with
an error whose message is exactly `HTTP <status>: <body>`, hence contains
the numeric status code and the raw body; the same raw-body message is
produced whether or not the body parses as JSON (the parse function is
universally quantified, covering bodies that would have parsed). The URL
and payload do not reach the response handler, so the property holds for
every URL and payload. -/
theorem sendRequestEnd_non2xx_rejects_with_status_and_raw_body {α : Type}
    (parseJson : String → Option α) (statusCode : Nat) (body : String)
    (h : ¬ (200 ≤ statusCode ∧ statusCode < 300)) :
    ∃ msg, sendRequestEnd parseJson statusCode body = .error msg ∧
      (∃ a b, msg = a ++ toString statusCode ++ b) ∧
      (∃ a, msg = a ++ body) := by
  refine ⟨"HTTP " ++ toString statusCode ++ ": " ++ body, ?_, ?_, ?_⟩
  · unfold sendRequestEnd
    cases parseJson body <;> simp [h]
  · exact ⟨"HTTP ", ": " ++ body, by simp [String.append_assoc]⟩
  · exact ⟨"HTTP " ++ toString statusCode ++ ": ", rfl⟩

/-- Witness for C1 at status 404 and a parse function that succeeds on the
body (modelling a body that is valid JSON): the raw body still appears in
the error message. -/
theorem sendRequestEnd_non2xx_witness :
    ¬ ((200 : Nat) ≤ 404 ∧ (404 : Nat) < 300) ∧
    (∃ msg, sendRequestEnd (fun _ => some (0 : Nat)) 404 "errcode 93000" = .error msg ∧
      (∃ a b, msg = a ++ toString (404 : Nat) ++ b) ∧
      (∃ a, msg = a ++ "errcode 93000")) :=
  ⟨by decide,
   sendRequestEnd_non2xx_rejects_with_status_and_raw_body
     (fun _ => some (0 : Nat)) 404 "errcode 93000" (by decide)⟩

/-- C8: a POST completing with a 2xx status code whose body fails to parse
as JSON resolves successfully with the fallback `{ raw: body }` object
instead of rejecting. -/
theorem sendRequestEnd_2xx_unparsable_resolves_raw {α : Type}
    (parseJson : String → Option α) (statusCode : Nat) (body : String)
    (hp : parseJson body = none) (h200 : 200 ≤ statusCode) (h300 : statusCode < 300) :
    sendRequestEnd parseJson statusCode body = .ok (.raw body) := by
  unfold sendRequestEnd
  rw [hp]
  simp [h200, h300]

/-- Witness for C8 at status 204 and a parse function that always fails. -/
theorem sendRequestEnd_2xx_unparsable_witness :
    ((fun (_ : String) => (none : Option Nat)) "ok" = none) ∧
    (200 : Nat) ≤ 204 ∧ (204 : Nat) < 300 ∧
    sendRequestEnd (fun _ => (none : Option Nat)) 204 "ok" = .ok (.raw "ok") :=
  ⟨rfl, by decide, by decide,
   sendRequestEnd_2xx_unparsable_resolves_raw (fun _ => (none : Option Nat)) 204 "ok"
     rfl (by decide) (by decide)⟩

/-- C7: `isConfigured` is true exactly when `getConfig` succeeds and false
exactly when it fails (it is a total boolean function, so it never itself
fails), and `getConfiguredPlatforms` is the registry enumeration filtered
by `isConfigured`, hence an order-preserving sublist of the registry whose
members are exactly the configured registry identifiers. -/
theorem isConfigured_collapses_and_list_filters (env : Env) (platform : String) :
    (isConfigured env platform = true ↔ ∃ c, getConfig env platform = .ok c) ∧
    (isConfigured env platform = false ↔ ∃ msg, getConfig env platform = .error msg) ∧
    getConfiguredPlatforms env = PLATFORMS.filter (fun q => isConfigured env q) ∧
    List.Sublist (getConfiguredPlatforms env) PLATFORMS ∧
    (∀ q, q ∈ getConfiguredPlatforms env ↔ q ∈ PLATFORMS ∧ isConfigured env q = true) := by
  refine ⟨?_, ?_, rfl, List.filter_sublist PLATFORMS, ?_⟩
  · unfold isConfigured
    cases hc : getConfig env platform <;> simp [hc]
  · unfold isConfigured
    cases hc : getConfig env platform <;> simp [hc]
  · intro q
    unfold getConfiguredPlatforms
    simp [List.mem_filter]

/-- C9: `pushProgress` always delegates to `push` with `options.title` set
to `"<taskName> - <statusKind>"`, overwriting any caller-supplied title
(the options record passed to `push` carries exactly that title). -/
theorem pushProgress_overwrites_title (taskName status details : String)
    (options : PushOptions) (now : String) :
    ((pushProgress taskName status details options now).1).options.title
      = some (taskName ++ " - " ++ status) := rfl

/-- C10: the caller's options object after `pushProgress` returns: when the
caller asked for platform `feishu`, its `color` field has been assigned the
raw `style.color` of the selected value `STATUS_STYLES[status] ||
STATUS_STYLES.in_progress` — overwriting any caller-supplied color, and
visible to the caller since the returned object is the caller's own — and
for every other platform the object is returned unchanged. On an inherited
`Object.prototype` name the selected value is the inherited member, whose
`color` read is `undefined` (`none`); on a registered status kind the
assigned color is exactly that status style's color (second conjunct). -/
theorem pushProgress_mutates_options_only_for_feishu (taskName status details : String)
    (options : PushOptions) (now : String) :
    (pushProgress taskName status details options now).2 =
      (if options.platform = some "feishu" then
        { options with color := rawColor (selectStyle status) }
      else options) ∧
    (∀ st, STATUS_STYLES status = some st →
      rawColor (selectStyle status) = some st.color) := by
  constructor
  · unfold pushProgress orDefault
    rcases hp : options.platform with _ | p
    · simp [DEFAULT_PLATFORM]
    · by_cases he : p = ""
      · subst he
        simp [DEFAULT_PLATFORM]
      · by_cases hf : p = "feishu" <;> simp [he, hf]
  · intro st hst
    simp [rawColor, selectStyle, styleLookup, hst]

/-- Counterexample to C3 as stated: `constructor` is outside the registry's
fixed set, yet `getConfig('constructor')` does not fail with the
unknown-platform error — `ENV_KEYS['constructor']` finds the truthy
inherited `Object.prototype.constructor`, so the code falls through to the
credential check and throws the missing-environment-variable message
(naming the coerced function) instead. -/
theorem getConfig_prototype_key_counterexample :
    "constructor" ∉ PLATFORMS ∧
    getConfig (fun _ => none) "constructor"
      = .error ("Missing environment variable: function Object() \x7b [native code] \x7d"
        ++ "\nPlease set it in your .env file or environment.\nExample: "
        ++ "function Object() \x7b [native code] \x7d=your-webhook-key-or-token") ∧
    ("Missing environment variable: function Object() \x7b [native code] \x7d"
      ++ "\nPlease set it in your .env file or environment.\nExample: "
      ++ "function Object() \x7b [native code] \x7d=your-webhook-key-or-token" : String)
      ≠ "Unknown platform: constructor. Supported platforms: wecom, dingtalk, feishu, slack, telegram" :=
  ⟨by decide, rfl, by decide⟩

/-- C3 (amended): resolving an identifier outside the registry that is also
not a property name inherited from `Object.prototype` fails with the
unknown-platform error whose message enumerates the five valid platform
identifiers (it ends with the full comma-separated enumeration). On
inherited property names such as `constructor` the lookup is truthy and a
different error is thrown; see the counterexample. -/
theorem getConfig_unknown_platform_enumerates (env : Env) (p : String)
    (h : p ∉ PLATFORMS) (hproto : OBJECT_PROTOTYPE p = none) :
    getConfig env p = .error ("Unknown platform: " ++ p
      ++ ". Supported platforms: wecom, dingtalk, feishu, slack, telegram") ∧
    ∃ a, getConfig env p
      = .error (a ++ "wecom, dingtalk, feishu, slack, telegram") := by
  simp only [PLATFORMS, List.mem_cons, List.mem_singleton, not_or] at h
  obtain ⟨h1, h2, h3, h4, h5⟩ := h
  have hk : ENV_KEYS p = none := by simp [ENV_KEYS, h1, h2, h3, h4, h5]
  have hr : registryGet ENV_KEYS p = .undefined := by simp [registryGet, hk, hproto]
  have hmain : getConfig env p = .error ("Unknown platform: " ++ p
      ++ ". Supported platforms: " ++ String.intercalate ", " PLATFORMS) := by
    unfold getConfig
    rw [hr]
    rfl
  constructor
  · rw [hmain]
    rw [String.append_assoc ("Unknown platform: " ++ p)]
    congr 1
  · refine ⟨"Unknown platform: " ++ p ++ ". Supported platforms: ", ?_⟩
    rw [hmain]
    congr 1

/-- Witness for C3 (amended) at the identifier `unknown-x` (no registry
entry, no inherited `Object.prototype` member) and an empty environment. -/
theorem getConfig_unknown_platform_witness :
    ("unknown-x" ∉ PLATFORMS) ∧
    OBJECT_PROTOTYPE "unknown-x" = none ∧
    (getConfig (fun _ => none) "unknown-x" = .error ("Unknown platform: " ++ "unknown-x"
      ++ ". Supported platforms: wecom, dingtalk, feishu, slack, telegram") ∧
    ∃ a, getConfig (fun _ => none) "unknown-x"
      = .error (a ++ "wecom, dingtalk, feishu, slack, telegram")) :=
  ⟨by decide, rfl,
   getConfig_unknown_platform_enumerates (fun _ => none) "unknown-x" (by decide) rfl⟩

/-- Helper shared by the resolver theorems: behaviour of `getConfig` once
the platform's own registered primary variable `k` (a non-empty string, as
all registry entries are) is known; `hproto` records that the identifier
is not also an inherited `Object.prototype` name (true of all five). -/
theorem getConfig_key_cases (env : Env) (p k : String) (hk : ENV_KEYS p = some k)
    (hkne : k ≠ "") (hproto : OBJECT_PROTOTYPE p = none) :
    (isFalsy (env k) = true → getConfig env p
      = .error ("Missing environment variable: " ++ k
        ++ "\nPlease set it in your .env file or environment.\nExample: "
        ++ k ++ "=your-webhook-key-or-token")) ∧
    (∀ v, env k = some v → v ≠ "" →
      (ENV_EXTRAS p = none → getConfig env p = .ok { key := v }) ∧
      (∀ e w, ENV_EXTRAS p = some e → e ≠ "" → env e = some w → w ≠ "" →
        getConfig env p = .ok { key := v, extra := some w })) := by
  have hr : registryGet ENV_KEYS p = .str k := by simp [registryGet, hk]
  constructor
  · intro hf
    unfold getConfig
    rw [hr]
    simp [isFalsyLookup, coerceLookup, hkne, hf]
  · intro v hv hne
    constructor
    · intro hex
      have hre : registryGet ENV_EXTRAS p = .undefined := by
        simp [registryGet, hex, hproto]
      unfold getConfig
      rw [hr, hre]
      simp [isFalsyLookup, coerceLookup, hkne, hv, isFalsy, hne]
    · intro e w hee hene hw hwne
      have hre : registryGet ENV_EXTRAS p = .str e := by simp [registryGet, hee]
      unfold getConfig
      rw [hr, hre]
      simp [isFalsyLookup, coerceLookup, hkne, hene, hv, hw, isFalsy, hne, hwne]

/-- C4 (amended): for every registered platform, a falsy (unset or empty)
primary variable makes `getConfig` fail naming that exact variable with the
how-to-set hint; a non-empty primary value yields a configuration whose
primary credential equals that value — provided the platform's declared
extra variable, when it has one, is also set non-empty (without that
proviso the claim fails on telegram, see the counterexample). -/
theorem getConfig_registered_platform_primary (env : Env) (p : String)
    (hp : p ∈ PLATFORMS) :
    ∃ k, ENV_KEYS p = some k ∧
      (isFalsy (env k) = true → getConfig env p
        = .error ("Missing environment variable: " ++ k
          ++ "\nPlease set it in your .env file or environment.\nExample: "
          ++ k ++ "=your-webhook-key-or-token")) ∧
      (∀ v, env k = some v → v ≠ "" →
        (ENV_EXTRAS p = none → getConfig env p = .ok { key := v }) ∧
        (∀ e w, ENV_EXTRAS p = some e → env e = some w → w ≠ "" →
          getConfig env p = .ok { key := v, extra := some w })) := by
  simp only [PLATFORMS, List.mem_cons, List.not_mem_nil, or_false] at hp
  rcases hp with rfl | rfl | rfl | rfl | rfl
  · refine ⟨"WEBHOOK_WECOM_KEY", rfl,
      (getConfig_key_cases env "wecom" "WEBHOOK_WECOM_KEY" rfl (by decide) rfl).1, ?_⟩
    intro v hv hne
    refine ⟨fun _ =>
      ((getConfig_key_cases env "wecom" "WEBHOOK_WECOM_KEY" rfl (by decide) rfl).2 v hv hne).1 rfl, ?_⟩
    intro e w hee hw hwne
    rw [show ENV_EXTRAS "wecom" = none from rfl] at hee
    exact Option.noConfusion hee
  · refine ⟨"WEBHOOK_DINGTALK_TOKEN", rfl,
      (getConfig_key_cases env "dingtalk" "WEBHOOK_DINGTALK_TOKEN" rfl (by decide) rfl).1, ?_⟩
    intro v hv hne
    refine ⟨fun _ =>
      ((getConfig_key_cases env "dingtalk" "WEBHOOK_DINGTALK_TOKEN" rfl (by decide) rfl).2 v hv hne).1 rfl, ?_⟩
    intro e w hee hw hwne
    rw [show ENV_EXTRAS "dingtalk" = none from rfl] at hee
    exact Option.noConfusion hee
  · refine ⟨"WEBHOOK_FEISHU_TOKEN", rfl,
      (getConfig_key_cases env "feishu" "WEBHOOK_FEISHU_TOKEN" rfl (by decide) rfl).1, ?_⟩
    intro v hv hne
    refine ⟨fun _ =>
      ((getConfig_key_cases env "feishu" "WEBHOOK_FEISHU_TOKEN" rfl (by decide) rfl).2 v hv hne).1 rfl, ?_⟩
    intro e w hee hw hwne
    rw [show ENV_EXTRAS "feishu" = none from rfl] at hee
    exact Option.noConfusion hee
  · refine ⟨"WEBHOOK_SLACK_URL", rfl,
      (getConfig_key_cases env "slack" "WEBHOOK_SLACK_URL" rfl (by decide) rfl).1, ?_⟩
    intro v hv hne
    refine ⟨fun _ =>
      ((getConfig_key_cases env "slack" "WEBHOOK_SLACK_URL" rfl (by decide) rfl).2 v hv hne).1 rfl, ?_⟩
    intro e w hee hw hwne
    rw [show ENV_EXTRAS "slack" = none from rfl] at hee
    exact Option.noConfusion hee
  · refine ⟨"WEBHOOK_TELEGRAM_TOKEN", rfl,
      (getConfig_key_cases env "telegram" "WEBHOOK_TELEGRAM_TOKEN" rfl (by decide) rfl).1, ?_⟩
    intro v hv hne
    refine ⟨fun hex => ?_, ?_⟩
    · rw [show ENV_EXTRAS "telegram" = some "WEBHOOK_TELEGRAM_CHAT_ID" from rfl] at hex
      exact Option.noConfusion hex
    · intro e w hee hw hwne
      have he : "WEBHOOK_TELEGRAM_CHAT_ID" = e := by
        rw [show ENV_EXTRAS "telegram" = some "WEBHOOK_TELEGRAM_CHAT_ID" from rfl] at hee
        exact Option.some.inj hee
      subst he
      exact ((getConfig_key_cases env "telegram" "WEBHOOK_TELEGRAM_TOKEN" rfl
        (by decide) rfl).2 v hv hne).2 "WEBHOOK_TELEGRAM_CHAT_ID" w rfl (by decide) hw hwne

/-- Counterexample to C4 as stated: telegram's primary token is set to the
non-empty value `test-token`, yet `getConfig` does not return a
configuration — it fails about the chat id. -/
theorem getConfig_telegram_token_only_counterexample :
    envTelegramTokenOnly "WEBHOOK_TELEGRAM_TOKEN" = some "test-token" ∧
    getConfig envTelegramTokenOnly "telegram"
      = .error ("Missing environment variable: WEBHOOK_TELEGRAM_CHAT_ID"
        ++ "\nThis is required for telegram webhooks.") :=
  ⟨rfl, rfl⟩

/-- Witness for C4 (amended) on `wecom` with `WEBHOOK_WECOM_KEY=test-key-123`. -/
theorem getConfig_registered_platform_witness :
    ("wecom" ∈ PLATFORMS) ∧
    getConfig envWecomOnly "wecom" = .ok { key := "test-key-123" } := by
  refine ⟨by decide, ?_⟩
  obtain ⟨k, hk, hmiss, hok⟩ :=
    getConfig_registered_platform_primary envWecomOnly "wecom" (by decide)
  have hkk : k = "WEBHOOK_WECOM_KEY" := by
    have h0 : ENV_KEYS "wecom" = some "WEBHOOK_WECOM_KEY" := rfl
    rw [h0] at hk
    exact (Option.some.inj hk).symm
  subst hkk
  exact (hok "test-key-123" rfl (by decide)).1 rfl

/-- C5: with a non-empty telegram token set, a falsy chat-id variable makes
`getConfig` fail naming `WEBHOOK_TELEGRAM_CHAT_ID`, with a message distinct
from the failure produced when the primary token itself is falsy; with both
set, the configuration carries primary = token and extra = chat id. -/
theorem getConfig_telegram_chat_id (env : Env) (t : String)
    (ht : env "WEBHOOK_TELEGRAM_TOKEN" = some t) (htne : t ≠ "") :
    (isFalsy (env "WEBHOOK_TELEGRAM_CHAT_ID") = true →
      getConfig env "telegram"
        = .error ("Missing environment variable: WEBHOOK_TELEGRAM_CHAT_ID"
          ++ "\nThis is required for telegram webhooks.") ∧
      (∀ env2 : Env, isFalsy (env2 "WEBHOOK_TELEGRAM_TOKEN") = true →
        ∃ m2, getConfig env2 "telegram" = .error m2 ∧
          ("Missing environment variable: WEBHOOK_TELEGRAM_CHAT_ID"
            ++ "\nThis is required for telegram webhooks." : String) ≠ m2)) ∧
    (∀ c, env "WEBHOOK_TELEGRAM_CHAT_ID" = some c → c ≠ "" →
      getConfig env "telegram" = .ok { key := t, extra := some c }) := by
  have hr : registryGet ENV_KEYS "telegram" = .str "WEBHOOK_TELEGRAM_TOKEN" := rfl
  have hre : registryGet ENV_EXTRAS "telegram" = .str "WEBHOOK_TELEGRAM_CHAT_ID" := rfl
  have hft : isFalsy (env "WEBHOOK_TELEGRAM_TOKEN") = false := by
    simp [ht, isFalsy, htne]
  constructor
  · intro hf
    constructor
    · unfold getConfig
      rw [hr, hre]
      simp [isFalsyLookup, coerceLookup, hft, hf]
    · intro env2 hf2
      refine ⟨"Missing environment variable: WEBHOOK_TELEGRAM_TOKEN"
        ++ "\nPlease set it in your .env file or environment.\nExample: "
        ++ "WEBHOOK_TELEGRAM_TOKEN" ++ "=your-webhook-key-or-token", ?_, by decide⟩
      unfold getConfig
      rw [hr]
      simp [isFalsyLookup, coerceLookup, hf2]
  · intro c hc hcne
    unfold getConfig
    rw [hr, hre]
    simp [isFalsyLookup, coerceLookup, ht, hc, isFalsy, htne, hcne]

/-- Witness for C5 with token `test-token` and chat id `-123456`. -/
theorem getConfig_telegram_chat_id_witness :
    (envTelegramFull "WEBHOOK_TELEGRAM_TOKEN" = some "test-token") ∧
    ("test-token" ≠ "") ∧
    getConfig envTelegramFull "telegram"
      = .ok { key := "test-token", extra := some "-123456" } :=
  ⟨rfl, by decide,
   (getConfig_telegram_chat_id envTelegramFull "test-token" rfl (by decide)).2
     "-123456" rfl (by decide)⟩

/-- Options object used as concrete input for the unknown-status claim:
platform `feishu` with a caller-supplied color. -/
def feishuOptions : PushOptions := { platform := some "feishu", color := some "olive" }

/-- Counterexample to C2 as stated: a whitespace-only `details` argument is
truthy in JavaScript, so the WeCom template does render a details block — a
stray block-quote line `\n>  ` — and the output differs from the one with
`details` empty. -/
theorem formatWeComProgress_blank_details_counterexample :
    formatWeComProgress "Build" "started" " "
        { color := "blue", emoji := "🚀", wecom := "info" } "2024-01-01T00:00:00.000Z"
      = "**Build** - <font color=\"info\">STARTED</font>\n>  \n> Time: 2024-01-01T00:00:00.000Z" ∧
    formatWeComProgress "Build" "started" " "
        { color := "blue", emoji := "🚀", wecom := "info" } "2024-01-01T00:00:00.000Z"
      ≠ formatWeComProgress "Build" "started" ""
        { color := "blue", emoji := "🚀", wecom := "info" } "2024-01-01T00:00:00.000Z" := by
  constructor <;> decide

/-- C2 (amended): for every platform's progress template, when `details` is
the empty string the output is exactly the template without any details
block — no empty line or stray block-quote prefix (whitespace-only details,
being truthy, do render a block; see the counterexample). -/
theorem progress_formatters_empty_details_omit_block (taskName status : String)
    (style : StatusStyle) (now : String) :
    formatWeComProgress taskName status "" style now
      = ("**" ++ taskName ++ "** - <font color=\"" ++ style.wecom ++ "\">"
        ++ toUpperCase status ++ "</font>") ++ ("\n> Time: " ++ now) ∧
    formatDingTalkProgress taskName status "" style now
      = (("### " ++ style.emoji ++ " " ++ taskName ++ "\n\n")
        ++ ("**Status:** " ++ toUpperCase status ++ "\n\n")) ++ ("---\n*" ++ now ++ "*") ∧
    formatFeishuProgress taskName status "" style now
      = (("**" ++ taskName ++ "**\n") ++ ("Status: " ++ toUpperCase status ++ "\n"))
        ++ ("\n---\n" ++ now) ∧
    formatSlackProgress taskName status "" style now
      = (style.emoji ++ " *" ++ taskName ++ "* - `" ++ toUpperCase status ++ "`")
        ++ ("\n_" ++ now ++ "_") ∧
    formatTelegramProgress taskName status "" style now
      = (style.emoji ++ " *" ++ taskName ++ "* - `" ++ toUpperCase status ++ "`")
        ++ ("\n\n_" ++ now ++ "_") ∧
    formatGenericProgress taskName status "" style now
      = (style.emoji ++ " " ++ taskName ++ " - " ++ toUpperCase status) ++ ("\n" ++ now) :=
  ⟨rfl, rfl, rfl, rfl, rfl, rfl⟩

/-- Helper: the WeCom template always contains the upper-cased status. -/
theorem formatWeComProgress_contains_status (t s d : String) (st : StatusStyle)
    (now : String) :
    ∃ a b, formatWeComProgress t s d st now = a ++ toUpperCase s ++ b := by
  by_cases h : d = ""
  · refine ⟨"**" ++ t ++ "** - <font color=\"" ++ st.wecom ++ "\">",
      "</font>" ++ ("\n> Time: " ++ now), ?_⟩
    apply String.ext
    simp [formatWeComProgress, h, String.data_append, List.append_assoc]
  · refine ⟨"**" ++ t ++ "** - <font color=\"" ++ st.wecom ++ "\">",
      "</font>" ++ ("\n> " ++ d) ++ ("\n> Time: " ++ now), ?_⟩
    apply String.ext
    simp [formatWeComProgress, h, String.data_append, List.append_assoc]

/-- Helper: the DingTalk template always contains the upper-cased status. -/
theorem formatDingTalkProgress_contains_status (t s d : String) (st : StatusStyle)
    (now : String) :
    ∃ a b, formatDingTalkProgress t s d st now = a ++ toUpperCase s ++ b := by
  by_cases h : d = ""
  · refine ⟨("### " ++ st.emoji ++ " " ++ t ++ "\n\n") ++ "**Status:** ",
      "\n\n" ++ ("---\n*" ++ now ++ "*"), ?_⟩
    apply String.ext
    simp [formatDingTalkProgress, h, String.data_append, List.append_assoc]
  · refine ⟨("### " ++ st.emoji ++ " " ++ t ++ "\n\n") ++ "**Status:** ",
      "\n\n" ++ ("> " ++ d ++ "\n\n") ++ ("---\n*" ++ now ++ "*"), ?_⟩
    apply String.ext
    simp [formatDingTalkProgress, h, String.data_append, List.append_assoc]

/-- Helper: the Feishu template always contains the upper-cased status. -/
theorem formatFeishuProgress_contains_status (t s d : String) (st : StatusStyle)
    (now : String) :
    ∃ a b, formatFeishuProgress t s d st now = a ++ toUpperCase s ++ b := by
  by_cases h : d = ""
  · refine ⟨("**" ++ t ++ "**\n") ++ "Status: ", "\n" ++ ("\n---\n" ++ now), ?_⟩
    apply String.ext
    simp [formatFeishuProgress, h, String.data_append, List.append_assoc]
  · refine ⟨("**" ++ t ++ "**\n") ++ "Status: ",
      "\n" ++ ("\n" ++ d ++ "\n") ++ ("\n---\n" ++ now), ?_⟩
    apply String.ext
    simp [formatFeishuProgress, h, String.data_append, List.append_assoc]

/-- Helper: the Slack template always contains the upper-cased status. -/
theorem formatSlackProgress_contains_status (t s d : String) (st : StatusStyle)
    (now : String) :
    ∃ a b, formatSlackProgress t s d st now = a ++ toUpperCase s ++ b := by
  by_cases h : d = ""
  · refine ⟨st.emoji ++ " *" ++ t ++ "* - `", "`" ++ ("\n_" ++ now ++ "_"), ?_⟩
    apply String.ext
    simp [formatSlackProgress, h, String.data_append, List.append_assoc]
  · refine ⟨st.emoji ++ " *" ++ t ++ "* - `",
      "`" ++ ("\n> " ++ d) ++ ("\n_" ++ now ++ "_"), ?_⟩
    apply String.ext
    simp [formatSlackProgress, h, String.data_append, List.append_assoc]

/-- Helper: the Telegram template always contains the upper-cased status. -/
theorem formatTelegramProgress_contains_status (t s d : String) (st : StatusStyle)
    (now : String) :
    ∃ a b, formatTelegramProgress t s d st now = a ++ toUpperCase s ++ b := by
  by_cases h : d = ""
  · refine ⟨st.emoji ++ " *" ++ t ++ "* - `", "`" ++ ("\n\n_" ++ now ++ "_"), ?_⟩
    apply String.ext
    simp [formatTelegramProgress, h, String.data_append, List.append_assoc]
  · refine ⟨st.emoji ++ " *" ++ t ++ "* - `",
      "`" ++ ("\n\n" ++ d) ++ ("\n\n_" ++ now ++ "_"), ?_⟩
    apply String.ext
    simp [formatTelegramProgress, h, String.data_append, List.append_assoc]

/-- Helper: the generic template always contains the upper-cased status. -/
theorem formatGenericProgress_contains_status (t s d : String) (st : StatusStyle)
    (now : String) :
    ∃ a b, formatGenericProgress t s d st now = a ++ toUpperCase s ++ b := by
  by_cases h : d = ""
  · refine ⟨st.emoji ++ " " ++ t ++ " - ", "\n" ++ now, ?_⟩
    apply String.ext
    simp [formatGenericProgress, h, String.data_append, List.append_assoc]
  · refine ⟨st.emoji ++ " " ++ t ++ " - ", ("\n" ++ d) ++ ("\n" ++ now), ?_⟩
    apply String.ext
    simp [formatGenericProgress, h, String.data_append, List.append_assoc]

/-- Helper: every branch of the `pushProgress` switch renders the
upper-cased status text. -/
theorem dispatchFormat_contains_status (platform t s d : String) (st : StatusStyle)
    (now : String) :
    ∃ a b, dispatchFormat platform t s d st now = a ++ toUpperCase s ++ b := by
  unfold dispatchFormat
  by_cases h1 : platform = "wecom"
  · rw [if_pos h1]
    exact formatWeComProgress_contains_status t s d st now
  rw [if_neg h1]
  by_cases h2 : platform = "dingtalk"
  · rw [if_pos h2]
    exact formatDingTalkProgress_contains_status t s d st now
  rw [if_neg h2]
  by_cases h3 : platform = "feishu"
  · rw [if_pos h3]
    exact formatFeishuProgress_contains_status t s d st now
  rw [if_neg h3]
  by_cases h4 : platform = "slack"
  · rw [if_pos h4]
    exact formatSlackProgress_contains_status t s d st now
  rw [if_neg h4]
  by_cases h5 : platform = "telegram"
  · rw [if_pos h5]
    exact formatTelegramProgress_contains_status t s d st now
  rw [if_neg h5]
  exact formatGenericProgress_contains_status t s d st now

/-- Counterexample to C6 as stated: at the status kind `constructor` —
outside the five known kinds — `STATUS_STYLES['constructor']` finds the
truthy inherited `Object.prototype.constructor`, so the `|| in_progress`
fallback never fires: the rendered WeCom output carries
`<font color="undefined">` (the inherited member has no `wecom` field),
not the `in_progress` accent `warning`. -/
theorem pushProgress_prototype_status_counterexample :
    "constructor" ∉ ["started", "in_progress", "completed", "failed", "cancelled"] ∧
    selectStyle "constructor" = .protoMember "constructor" ∧
    (pushProgress "Build" "constructor" "" {} "2024-01-01T00:00:00.000Z").1.content
      = "**Build** - <font color=\"undefined\">CONSTRUCTOR</font>\n> Time: 2024-01-01T00:00:00.000Z" ∧
    (pushProgress "Build" "constructor" "" {} "2024-01-01T00:00:00.000Z").1.content
      ≠ dispatchFormat "wecom" "Build" "constructor" "" inProgressStyle "2024-01-01T00:00:00.000Z" :=
  ⟨by decide, rfl, by decide, by decide⟩

/-- C6 (amended): for a status kind outside the five known ones that is
also not a property name inherited from `Object.prototype` (on those the
truthy inherited member suppresses the fallback; see the counterexample)
and is ASCII-only (the scope on which the model's per-character
uppercasing agrees with JS Unicode `toUpperCase`), `pushProgress` falls
back to the `in_progress` style: the content passed to `push` is the
platform template rendered with `inProgressStyle` (and the feishu accent
color written into the options is the `in_progress` color), while the
output still contains the caller's literal status text, upper-cased. -/
theorem pushProgress_unknown_status_falls_back (status taskName details : String)
    (options : PushOptions) (now : String)
    (h : status ∉ ["started", "in_progress", "completed", "failed", "cancelled"])
    (hproto : OBJECT_PROTOTYPE status = none) (hascii : asciiOnly status = true) :
    STATUS_STYLES status = none ∧
    selectStyle status = .style inProgressStyle ∧
    (pushProgress taskName status details options now).1.content
      = dispatchFormat (orDefault options.platform DEFAULT_PLATFORM)
          taskName status details inProgressStyle now ∧
    (∃ a b, (pushProgress taskName status details options now).1.content
      = a ++ toUpperCase status ++ b) ∧
    (options.platform = some "feishu" →
      (pushProgress taskName status details options now).2.color
        = some inProgressStyle.color) := by
  simp only [List.mem_cons, List.not_mem_nil, or_false, not_or] at h
  obtain ⟨h1, h2, h3, h4, h5⟩ := h
  have hs : STATUS_STYLES status = none := by simp [STATUS_STYLES, h1, h2, h3, h4, h5]
  have hsel : selectStyle status = .style inProgressStyle := by
    simp [selectStyle, styleLookup, hs, hproto]
  have hc : (pushProgress taskName status details options now).1.content
      = dispatchFormat (orDefault options.platform DEFAULT_PLATFORM)
          taskName status details inProgressStyle now := by
    simp [pushProgress, hsel, renderedStyle]
  refine ⟨hs, hsel, hc, ?_, ?_⟩
  · rw [hc]
    exact dispatchFormat_contains_status _ taskName status details inProgressStyle now
  · intro hf
    simp [pushProgress, orDefault, hf, hsel, rawColor]

/-- Witness for C6 (amended) at the unknown status `unknown` (not a
registry kind, not an `Object.prototype` name, ASCII-only), platform
feishu with a caller-supplied color. -/
theorem pushProgress_unknown_status_witness :
    ("unknown" ∉ ["started", "in_progress", "completed", "failed", "cancelled"]) ∧
    OBJECT_PROTOTYPE "unknown" = none ∧
    asciiOnly "unknown" = true ∧
    (STATUS_STYLES "unknown" = none ∧
    selectStyle "unknown" = .style inProgressStyle ∧
    (pushProgress "Build" "unknown" "step 1" feishuOptions "2024-01-01T00:00:00.000Z").1.content
      = dispatchFormat (orDefault feishuOptions.platform DEFAULT_PLATFORM)
          "Build" "unknown" "step 1" inProgressStyle "2024-01-01T00:00:00.000Z" ∧
    (∃ a b, (pushProgress "Build" "unknown" "step 1" feishuOptions "2024-01-01T00:00:00.000Z").1.content
      = a ++ toUpperCase "unknown" ++ b) ∧
    (feishuOptions.platform = some "feishu" →
      (pushProgress "Build" "unknown" "step 1" feishuOptions "2024-01-01T00:00:00.000Z").2.color
        = some inProgressStyle.color)) :=
  ⟨by decide, rfl, by decide,
   pushProgress_unknown_status_falls_back "unknown" "Build" "step 1"
     feishuOptions "2024-01-01T00:00:00.000Z" (by decide) rfl (by decide)⟩

end WebhookPush
